import Mathlib

/-!
Shallow embedding of `js/beam-analysis.js`: a beam-analysis library computing
deflection, bending-moment and shear-force curves for a uniformly loaded beam,
either simply supported (one span) or continuous over two unequal spans.

JavaScript numbers are modelled by exact rationals (ℚ).  `toFixed(1)` followed
by `parseFloat` is modelled by `round1`: rounding to one decimal place, ties
going up (ECMAScript `toFixed` picks the larger candidate on a tie, matching
Mathlib's `round`).  The sampling loops `for (i = 0; i <= total; i += step)`
are modelled by the fuel-bounded `sampleXs`; for every positive total length
the fuel is never exhausted, so the embedding agrees with the source loop.
-/

/-- `parseFloat(v.toFixed(1))`: round to one decimal place, ties upward. -/
def round1 (q : ℚ) : ℚ := (round (q * 10) : ℤ) / 10

/-- The sampling loop `for (let i = 0; i <= total; i += step)`, collecting the
raw loop variable `i`.  `fuel` bounds the number of iterations; the equation
methods pass a fuel larger than any iteration count they can reach. -/
def sampleXs : ℕ → ℚ → ℚ → ℚ → List ℚ
  | 0, _, _, _ => []
  | fuel + 1, i, total, step =>
    if i ≤ total then i :: sampleXs fuel (i + step) total step else []

/-- Material properties bag; the analyzers read `EI` (flexural rigidity) and
`j2` (the deflection scale factor). -/
structure MaterialProperties where
  EI : ℚ
  j2 : ℚ

/-- `function Material(name, properties)`. -/
structure Material where
  name : String
  properties : MaterialProperties

/-- `function Beam(primarySpan, secondarySpan, material)`. -/
structure Beam where
  primarySpan : ℚ
  secondarySpan : ℚ
  material : Material

/-- A sampled equation `{ x: xValues, y: vValues }`. -/
structure Equation where
  x : List ℚ
  y : List ℚ

/-- The `{ M1, R1, R2, R3 }` record returned by `calculateSupports`. -/
structure Supports where
  M1 : ℚ
  R1 : ℚ
  R2 : ℚ
  R3 : ℚ

/-- The `{ beam, load, equation }` record returned by the facade. -/
structure AnalysisResult where
  beam : Beam
  load : ℚ
  equation : Equation

namespace simplySupported

/-- `simplySupported.getDeflectionEquation`: step `L/8`, x rounded to one
decimal, `V = -((load·x)/(24·EI))·(L³ − 2·L·x² + x³)·j2·1000`, recorded value
`parseFloat((V * 1e9).toFixed(1))`. -/
def getDeflectionEquation (beam : Beam) (load : ℚ) : Equation :=
  let primarySpan := beam.primarySpan
  let EI := beam.material.properties.EI
  let j2 := beam.material.properties.j2
  let step := primarySpan / 8
  let xs := (sampleXs 2000 0 primarySpan step).map (fun i => round1 i)
  { x := xs,
    y := xs.map (fun x =>
      round1 ((-((load * x) / (24 * EI)) *
        (primarySpan ^ 3 - 2 * primarySpan * x ^ 2 + x ^ 3) * j2 * 1000) * 10 ^ 9)) }

/-- `simplySupported.getBendingMomentEquation`: step `L/10`,
`V = (load·x/2)·(L − x)·(−1)`, recorded rounded to one decimal. -/
def getBendingMomentEquation (beam : Beam) (load : ℚ) : Equation :=
  let primarySpan := beam.primarySpan
  let step := primarySpan / 10
  let xs := (sampleXs 2000 0 primarySpan step).map (fun i => round1 i)
  { x := xs,
    y := xs.map (fun x => round1 ((load * x / 2) * (primarySpan - x) * (-1))) }

/-- `simplySupported.getShearForceEquation`: step `L/10`,
`V = load·(L/2 − x)`, recorded rounded to one decimal. -/
def getShearForceEquation (beam : Beam) (load : ℚ) : Equation :=
  let primarySpan := beam.primarySpan
  let step := primarySpan / 10
  let xs := (sampleXs 2000 0 primarySpan step).map (fun i => round1 i)
  { x := xs,
    y := xs.map (fun x => round1 (load * (primarySpan / 2 - x))) }

end simplySupported

namespace twoSpanUnequal

/-- `twoSpanUnequal.calculateSupports`. -/
def calculateSupports (primarySpan secondarySpan load : ℚ) : Supports :=
  let M1 := -((load * secondarySpan ^ 3) + (load * primarySpan ^ 3)) /
      (8 * (primarySpan + secondarySpan))
  let R1 := (M1 / primarySpan) + ((load * primarySpan) / 2)
  let R3 := (M1 / secondarySpan) + ((load * secondarySpan) / 2)
  let R2 := (load * primarySpan) + (load * secondarySpan) - R1 - R3
  { M1 := M1, R1 := R1, R2 := R2, R3 := R3 }

/-- `twoSpanUnequal.calculateDeflectionValue`. -/
def calculateDeflectionValue (x primarySpan secondarySpan EI j2 R1 R2 load : ℚ) : ℚ :=
  if x ≤ primarySpan then
    ((x / (24 * EI)) *
      (4 * R1 * x ^ 2 - load * x ^ 3 + load * primarySpan ^ 3 -
        4 * R1 * primarySpan ^ 2)) * j2 * 1000
  else
    let span2x := x - primarySpan
    (((R1 * x / 6) * (x ^ 2 - primarySpan ^ 2) +
        (R2 * span2x / 6) * (span2x ^ 2 - 3 * primarySpan * span2x + 3 * primarySpan ^ 2) -
        R2 * primarySpan ^ 3 / 6 -
        (load * span2x / 24) * (span2x ^ 3 - secondarySpan ^ 3)) / EI) * j2 * 1000

/-- `twoSpanUnequal.calculateBendingMomentValue`. -/
def calculateBendingMomentValue (x primarySpan totalLength R1 R2 load : ℚ) : ℚ :=
  if x = 0 ∨ x = totalLength then 0
  else if x < primarySpan then -(R1 * x - 1 / 2 * load * x ^ 2)
  else if x > primarySpan then -(R1 * x + R2 * (x - primarySpan) - 1 / 2 * load * x ^ 2)
  else -(R1 * primarySpan - 1 / 2 * load * primarySpan ^ 2)

/-- `twoSpanUnequal.calculateShearForceValue`. -/
def calculateShearForceValue (x primarySpan R1 R2 load : ℚ) : ℚ :=
  if x < primarySpan then R1 - load * x
  else if x = primarySpan then R2 - load * x
  else R2 - load * (x - primarySpan)

/-- `twoSpanUnequal.getDeflectionEquation`: step `(L1+L2)/1000`, value from
`calculateDeflectionValue` at the rounded x, recorded as
`parseFloat((V * 1e9).toFixed(1))`. -/
def getDeflectionEquation (beam : Beam) (load : ℚ) : Equation :=
  let primarySpan := beam.primarySpan
  let secondarySpan := beam.secondarySpan
  let EI := beam.material.properties.EI
  let j2 := beam.material.properties.j2
  let totalLength := primarySpan + secondarySpan
  let s := calculateSupports primarySpan secondarySpan load
  let step := totalLength / 1000
  let xs := (sampleXs 2000 0 totalLength step).map (fun i => round1 i)
  { x := xs,
    y := xs.map (fun x =>
      round1 ((calculateDeflectionValue x primarySpan secondarySpan EI j2
        s.R1 s.R2 load) * 10 ^ 9)) }

/-- `twoSpanUnequal.getBendingMomentEquation`. -/
def getBendingMomentEquation (beam : Beam) (load : ℚ) : Equation :=
  let primarySpan := beam.primarySpan
  let secondarySpan := beam.secondarySpan
  let totalLength := primarySpan + secondarySpan
  let s := calculateSupports primarySpan secondarySpan load
  let step := totalLength / 1000
  let xs := (sampleXs 2000 0 totalLength step).map (fun i => round1 i)
  { x := xs,
    y := xs.map (fun x =>
      round1 (calculateBendingMomentValue x primarySpan totalLength s.R1 s.R2 load)) }

/-- `twoSpanUnequal.getShearForceEquation`. -/
def getShearForceEquation (beam : Beam) (load : ℚ) : Equation :=
  let primarySpan := beam.primarySpan
  let secondarySpan := beam.secondarySpan
  let totalLength := primarySpan + secondarySpan
  let s := calculateSupports primarySpan secondarySpan load
  let step := totalLength / 1000
  let xs := (sampleXs 2000 0 totalLength step).map (fun i => round1 i)
  { x := xs,
    y := xs.map (fun x =>
      round1 (calculateShearForceValue x primarySpan s.R1 s.R2 load)) }

end twoSpanUnequal

/-- The two analyzers registered in the `BeamAnalysis` constructor. -/
inductive Analyzer where
  | simplySupportedA : Analyzer
  | twoSpanUnequalA : Analyzer

/-- `this.analyzer[condition]`: the registry lookup. -/
def analyzerFor (condition : String) : Option Analyzer :=
  if condition = "simply-supported" then some Analyzer.simplySupportedA
  else if condition = "two-span-unequal" then some Analyzer.twoSpanUnequalA
  else none

def Analyzer.deflectionEquation : Analyzer → Beam → ℚ → Equation
  | Analyzer.simplySupportedA => simplySupported.getDeflectionEquation
  | Analyzer.twoSpanUnequalA => twoSpanUnequal.getDeflectionEquation

def Analyzer.bendingMomentEquation : Analyzer → Beam → ℚ → Equation
  | Analyzer.simplySupportedA => simplySupported.getBendingMomentEquation
  | Analyzer.twoSpanUnequalA => twoSpanUnequal.getBendingMomentEquation

def Analyzer.shearForceEquation : Analyzer → Beam → ℚ → Equation
  | Analyzer.simplySupportedA => simplySupported.getShearForceEquation
  | Analyzer.twoSpanUnequalA => twoSpanUnequal.getShearForceEquation

namespace BeamAnalysis

/-- `BeamAnalysis.prototype.getDeflection`; `throw new Error('Invalid
condition')` is modelled as `Except.error`. -/
def getDeflection (beam : Beam) (load : ℚ) (condition : String) :
    Except String AnalysisResult :=
  match analyzerFor condition with
  | some a => Except.ok ⟨beam, load, a.deflectionEquation beam load⟩
  | none => Except.error "Invalid condition"

/-- `BeamAnalysis.prototype.getBendingMoment`. -/
def getBendingMoment (beam : Beam) (load : ℚ) (condition : String) :
    Except String AnalysisResult :=
  match analyzerFor condition with
  | some a => Except.ok ⟨beam, load, a.bendingMomentEquation beam load⟩
  | none => Except.error "Invalid condition"

/-- `BeamAnalysis.prototype.getShearForce`. -/
def getShearForce (beam : Beam) (load : ℚ) (condition : String) :
    Except String AnalysisResult :=
  match analyzerFor condition with
  | some a => Except.ok ⟨beam, load, a.shearForceEquation beam load⟩
  | none => Except.error "Invalid condition"

end BeamAnalysis

/-! ### Characterization of the sampling loop

In exact arithmetic, the loop `for (i = 0; i <= total; i += step)` with
`step = total / N` and `total > 0` visits exactly the positions `k · step`
for `k = 0, …, N`. -/

lemma sampleXs_go (total step : ℚ) (hstep : 0 < step) (n : ℕ)
    (hn : (n : ℚ) * step ≤ total) (hn' : total < ((n : ℚ) + 1) * step) :
    ∀ fuel j, j ≤ n + 1 → n + 1 - j ≤ fuel →
      sampleXs fuel ((j : ℚ) * step) total step =
        (List.range' j (n + 1 - j)).map (fun k : ℕ => (k : ℚ) * step) := by
  intro fuel
  induction fuel with
  | zero =>
      intro j hj hfuel
      have hj' : j = n + 1 := by omega
      subst hj'
      simp [sampleXs]
  | succ fuel ih =>
      intro j hj hfuel
      rcases Nat.lt_or_ge j (n + 1) with hlt | hge
      · have hjn : (j : ℚ) ≤ (n : ℚ) := by exact_mod_cast Nat.lt_succ_iff.mp hlt
        have hcond : (j : ℚ) * step ≤ total :=
          le_trans (mul_le_mul_of_nonneg_right hjn hstep.le) hn
        have hstep1 : (j : ℚ) * step + step = ((j + 1 : ℕ) : ℚ) * step := by
          push_cast; ring
        have hrange : n + 1 - j = (n + 1 - (j + 1)) + 1 := by omega
        rw [sampleXs, if_pos hcond, hstep1, ih (j + 1) (by omega) (by omega),
          hrange, List.range'_succ, List.map_cons]
      · have hj' : j = n + 1 := by omega
        subst hj'
        have hcond : ¬ ((n + 1 : ℕ) : ℚ) * step ≤ total := by
          push_cast
          exact not_le.mpr hn'
        rw [sampleXs, if_neg hcond]
        simp

lemma sampleXs_div (total : ℚ) (htotal : 0 < total) (N : ℕ) (hN : 0 < N)
    (fuel : ℕ) (hfuel : N + 1 ≤ fuel) :
    sampleXs fuel 0 total (total / (N : ℚ)) =
      (List.range (N + 1)).map (fun k : ℕ => (k : ℚ) * (total / (N : ℚ))) := by
  have hNQ : (0 : ℚ) < (N : ℚ) := by exact_mod_cast hN
  have hstep : 0 < total / (N : ℚ) := div_pos htotal hNQ
  have hn : ((N : ℕ) : ℚ) * (total / (N : ℚ)) ≤ total := by
    rw [mul_comm, div_mul_cancel₀ total (ne_of_gt hNQ)]
  have hn' : total < (((N : ℕ) : ℚ) + 1) * (total / (N : ℚ)) := by
    have h1 : (((N : ℕ) : ℚ) + 1) * (total / (N : ℚ)) =
        (N : ℚ) * (total / (N : ℚ)) + total / (N : ℚ) := by ring
    have h2 : ((N : ℕ) : ℚ) * (total / (N : ℚ)) = total := by
      rw [mul_comm, div_mul_cancel₀ total (ne_of_gt hNQ)]
    rw [h1, h2]
    linarith
  have h := sampleXs_go total (total / (N : ℚ)) hstep N hn hn' fuel 0
    (by omega) (by omega)
  simpa [List.range_eq_range'] using h

/-- The x-list produced by every equation method: rounded multiples of the
step, for `k = 0, …, N`, whenever the span (hence the step) is positive. -/
lemma map_round1_sampleXs (total : ℚ) (htotal : 0 < total) (N : ℕ) (hN : 0 < N)
    (hfuel : N + 1 ≤ 2000) (step : ℚ) (hstep : step = total / (N : ℚ)) :
    (sampleXs 2000 0 total step).map (fun i => round1 i) =
      (List.range (N + 1)).map (fun k : ℕ => round1 ((k : ℚ) * step)) := by
  subst hstep
  rw [sampleXs_div total htotal N hN 2000 hfuel, List.map_map]
  rfl

/-! ### Facts about `round1` -/

lemma round1_mono {a b : ℚ} (hab : a ≤ b) : round1 a ≤ round1 b := by
  unfold round1
  have h : round (a * 10) ≤ round (b * 10) := by
    rw [round_eq, round_eq]
    exact Int.floor_mono (by linarith)
  have h' : ((round (a * 10) : ℤ) : ℚ) ≤ ((round (b * 10) : ℤ) : ℚ) := by
    exact_mod_cast h
  linarith

lemma round1_zero : round1 0 = 0 := by
  unfold round1
  simp

lemma round1_eq_zero {q : ℚ} (h0 : 0 ≤ q) (h1 : q < 1 / 20) : round1 q = 0 := by
  unfold round1
  have : round (q * 10) = 0 := by
    rw [round_eq_zero_iff]
    constructor
    · linarith
    · linarith
  rw [this]
  simp

/-! ### Per-equation characterizations -/

lemma simplySupported_deflection_x (beam : Beam) (load : ℚ)
    (h : 0 < beam.primarySpan) :
    (simplySupported.getDeflectionEquation beam load).x =
      (List.range 9).map (fun k : ℕ => round1 ((k : ℚ) * (beam.primarySpan / 8))) := by
  simp only [simplySupported.getDeflectionEquation]
  rw [map_round1_sampleXs beam.primarySpan h 8 (by norm_num) (by norm_num)
    (beam.primarySpan / 8) (by norm_num)]

lemma simplySupported_deflection_y (beam : Beam) (load : ℚ) :
    (simplySupported.getDeflectionEquation beam load).y =
      (simplySupported.getDeflectionEquation beam load).x.map (fun x =>
        round1 ((-((load * x) / (24 * beam.material.properties.EI)) *
          (beam.primarySpan ^ 3 - 2 * beam.primarySpan * x ^ 2 + x ^ 3) *
          beam.material.properties.j2 * 1000) * 10 ^ 9)) := rfl

lemma simplySupported_moment_x (beam : Beam) (load : ℚ)
    (h : 0 < beam.primarySpan) :
    (simplySupported.getBendingMomentEquation beam load).x =
      (List.range 11).map (fun k : ℕ => round1 ((k : ℚ) * (beam.primarySpan / 10))) := by
  simp only [simplySupported.getBendingMomentEquation]
  rw [map_round1_sampleXs beam.primarySpan h 10 (by norm_num) (by norm_num)
    (beam.primarySpan / 10) (by norm_num)]

lemma simplySupported_moment_y (beam : Beam) (load : ℚ) :
    (simplySupported.getBendingMomentEquation beam load).y =
      (simplySupported.getBendingMomentEquation beam load).x.map (fun x =>
        round1 ((load * x / 2) * (beam.primarySpan - x) * (-1))) := rfl

lemma simplySupported_shear_x (beam : Beam) (load : ℚ)
    (h : 0 < beam.primarySpan) :
    (simplySupported.getShearForceEquation beam load).x =
      (List.range 11).map (fun k : ℕ => round1 ((k : ℚ) * (beam.primarySpan / 10))) := by
  simp only [simplySupported.getShearForceEquation]
  rw [map_round1_sampleXs beam.primarySpan h 10 (by norm_num) (by norm_num)
    (beam.primarySpan / 10) (by norm_num)]

lemma simplySupported_shear_y (beam : Beam) (load : ℚ) :
    (simplySupported.getShearForceEquation beam load).y =
      (simplySupported.getShearForceEquation beam load).x.map (fun x =>
        round1 (load * (beam.primarySpan / 2 - x))) := rfl

lemma twoSpanUnequal_deflection_x (beam : Beam) (load : ℚ)
    (h : 0 < beam.primarySpan + beam.secondarySpan) :
    (twoSpanUnequal.getDeflectionEquation beam load).x =
      (List.range 1001).map (fun k : ℕ =>
        round1 ((k : ℚ) * ((beam.primarySpan + beam.secondarySpan) / 1000))) := by
  simp only [twoSpanUnequal.getDeflectionEquation]
  rw [map_round1_sampleXs (beam.primarySpan + beam.secondarySpan) h 1000
    (by norm_num) (by norm_num) ((beam.primarySpan + beam.secondarySpan) / 1000)
    (by norm_num)]

lemma twoSpanUnequal_deflection_y (beam : Beam) (load : ℚ) :
    (twoSpanUnequal.getDeflectionEquation beam load).y =
      (twoSpanUnequal.getDeflectionEquation beam load).x.map (fun x =>
        round1 ((twoSpanUnequal.calculateDeflectionValue x beam.primarySpan
          beam.secondarySpan beam.material.properties.EI beam.material.properties.j2
          (twoSpanUnequal.calculateSupports beam.primarySpan beam.secondarySpan load).R1
          (twoSpanUnequal.calculateSupports beam.primarySpan beam.secondarySpan load).R2
          load) * 10 ^ 9)) := rfl

lemma twoSpanUnequal_moment_x (beam : Beam) (load : ℚ)
    (h : 0 < beam.primarySpan + beam.secondarySpan) :
    (twoSpanUnequal.getBendingMomentEquation beam load).x =
      (List.range 1001).map (fun k : ℕ =>
        round1 ((k : ℚ) * ((beam.primarySpan + beam.secondarySpan) / 1000))) := by
  simp only [twoSpanUnequal.getBendingMomentEquation]
  rw [map_round1_sampleXs (beam.primarySpan + beam.secondarySpan) h 1000
    (by norm_num) (by norm_num) ((beam.primarySpan + beam.secondarySpan) / 1000)
    (by norm_num)]

lemma twoSpanUnequal_moment_y (beam : Beam) (load : ℚ) :
    (twoSpanUnequal.getBendingMomentEquation beam load).y =
      (twoSpanUnequal.getBendingMomentEquation beam load).x.map (fun x =>
        round1 (twoSpanUnequal.calculateBendingMomentValue x beam.primarySpan
          (beam.primarySpan + beam.secondarySpan)
          (twoSpanUnequal.calculateSupports beam.primarySpan beam.secondarySpan load).R1
          (twoSpanUnequal.calculateSupports beam.primarySpan beam.secondarySpan load).R2
          load)) := rfl

lemma twoSpanUnequal_shear_x (beam : Beam) (load : ℚ)
    (h : 0 < beam.primarySpan + beam.secondarySpan) :
    (twoSpanUnequal.getShearForceEquation beam load).x =
      (List.range 1001).map (fun k : ℕ =>
        round1 ((k : ℚ) * ((beam.primarySpan + beam.secondarySpan) / 1000))) := by
  simp only [twoSpanUnequal.getShearForceEquation]
  rw [map_round1_sampleXs (beam.primarySpan + beam.secondarySpan) h 1000
    (by norm_num) (by norm_num) ((beam.primarySpan + beam.secondarySpan) / 1000)
    (by norm_num)]

lemma twoSpanUnequal_shear_y (beam : Beam) (load : ℚ) :
    (twoSpanUnequal.getShearForceEquation beam load).y =
      (twoSpanUnequal.getShearForceEquation beam load).x.map (fun x =>
        round1 (twoSpanUnequal.calculateShearForceValue x beam.primarySpan
          (twoSpanUnequal.calculateSupports beam.primarySpan beam.secondarySpan load).R1
          (twoSpanUnequal.calculateSupports beam.primarySpan beam.secondarySpan load).R2
          load)) := rfl

/-! ### List-shape helper lemmas -/

lemma get?_map_range (N : ℕ) (f : ℕ → ℚ) (k : ℕ) (hk : k < N) :
    ((List.range N).map f).get? k = some (f k) := by
  rw [List.get?_map, List.get?_eq_getElem?, List.getElem?_range hk]
  rfl

lemma sorted_le_round1_range (N : ℕ) (step : ℚ) (h : 0 ≤ step) :
    List.Sorted (· ≤ ·)
      ((List.range N).map (fun k : ℕ => round1 ((k : ℚ) * step))) := by
  rw [List.Sorted, List.pairwise_map]
  apply List.Pairwise.imp ?_ (List.pairwise_lt_range N)
  intro a b hab
  apply round1_mono
  have hab' : (a : ℚ) ≤ (b : ℚ) := by exact_mod_cast Nat.le_of_lt hab
  exact mul_le_mul_of_nonneg_right hab' h

lemma getLast?_map_range (N : ℕ) (f : ℕ → ℚ) :
    ((List.range (N + 1)).map f).getLast? = some (f N) := by
  rw [List.getLast?_map, List.range_eq_range', List.getLast?_range']
  simp

/-! ### Concrete fixtures used in the spec's scenarios -/

/-- The material of the spec's concrete scenarios: `EI = 210000000`,
deflection scale `j2 = 1`. -/
def testMaterial : Material := ⟨"steel", ⟨210000000, 1⟩⟩

/-- Simply-supported scenario beam: `L = 8`. -/
def beamSS : Beam := ⟨8, 0, testMaterial⟩

/-- Two-span scenario beam: `L1 = 4`, `L2 = 6`. -/
def beamTS : Beam := ⟨4, 6, testMaterial⟩

/-! ### Claims -/

/-- C1: for every load `w` and spans `L1 > 0`, `L2 > 0` the two-span reaction
solver returns exactly `M1 = -(w·L2³ + w·L1³)/(8·(L1+L2))`,
`R1 = M1/L1 + w·L1/2`, `R3 = M1/L2 + w·L2/2`, `R2 = w·L1 + w·L2 − R1 − R3`;
in particular for `L1 = 4`, `L2 = 6`, `w = 10` it yields `M1 = -35` and
`R1 = 11.25`. -/
theorem claim_C1 (load L1 L2 : ℚ) (h1 : 0 < L1) (h2 : 0 < L2) :
    ((twoSpanUnequal.calculateSupports L1 L2 load).M1 =
        -(load * L2 ^ 3 + load * L1 ^ 3) / (8 * (L1 + L2)) ∧
      (twoSpanUnequal.calculateSupports L1 L2 load).R1 =
        (twoSpanUnequal.calculateSupports L1 L2 load).M1 / L1 + load * L1 / 2 ∧
      (twoSpanUnequal.calculateSupports L1 L2 load).R3 =
        (twoSpanUnequal.calculateSupports L1 L2 load).M1 / L2 + load * L2 / 2 ∧
      (twoSpanUnequal.calculateSupports L1 L2 load).R2 =
        load * L1 + load * L2 - (twoSpanUnequal.calculateSupports L1 L2 load).R1 -
          (twoSpanUnequal.calculateSupports L1 L2 load).R3) ∧
    (twoSpanUnequal.calculateSupports 4 6 10).M1 = -35 ∧
    (twoSpanUnequal.calculateSupports 4 6 10).R1 = 11.25 := by
  refine ⟨⟨rfl, rfl, rfl, rfl⟩, ?_, ?_⟩ <;>
    norm_num [twoSpanUnequal.calculateSupports]

theorem claim_C1_witness :
    (twoSpanUnequal.calculateSupports 4 6 10).M1 = -35 ∧
    (twoSpanUnequal.calculateSupports 4 6 10).R1 = 11.25 :=
  (claim_C1 10 4 6 (by norm_num) (by norm_num)).2

/-- C3: the reactions returned by the two-span solver satisfy vertical
equilibrium `R1 + R2 + R3 = w·(L1+L2)` exactly. -/
theorem claim_C3 (load L1 L2 : ℚ) (h1 : 0 < L1) (h2 : 0 < L2) :
    (twoSpanUnequal.calculateSupports L1 L2 load).R1 +
      (twoSpanUnequal.calculateSupports L1 L2 load).R2 +
      (twoSpanUnequal.calculateSupports L1 L2 load).R3 = load * (L1 + L2) := by
  simp only [twoSpanUnequal.calculateSupports]
  ring

theorem claim_C3_witness :
    (twoSpanUnequal.calculateSupports 4 6 10).R1 +
      (twoSpanUnequal.calculateSupports 4 6 10).R2 +
      (twoSpanUnequal.calculateSupports 4 6 10).R3 = 10 * (4 + 6) :=
  claim_C3 10 4 6 (by norm_num) (by norm_num)

/-- With the solver's reactions, the interior formula for the moment vanishes
at the far end `x = L1 + L2` (static moment equilibrium, an identity in the
solver's definitions). -/
lemma moment_formula_at_total (load L1 L2 : ℚ) (h1 : L1 ≠ 0) (h2 : L2 ≠ 0)
    (h12 : L1 + L2 ≠ 0) :
    (twoSpanUnequal.calculateSupports L1 L2 load).R1 * (L1 + L2) +
      (twoSpanUnequal.calculateSupports L1 L2 load).R2 * ((L1 + L2) - L1) -
      1 / 2 * load * (L1 + L2) ^ 2 = 0 := by
  simp only [twoSpanUnequal.calculateSupports]
  field_simp
  ring

/-- C4: the two-span bending-moment evaluator returns exactly 0 at `x = 0`
and at `x = L1 + L2`. -/
theorem claim_C4 (load L1 L2 : ℚ) (h1 : 0 < L1) (h2 : 0 < L2) :
    twoSpanUnequal.calculateBendingMomentValue 0 L1 (L1 + L2)
      (twoSpanUnequal.calculateSupports L1 L2 load).R1
      (twoSpanUnequal.calculateSupports L1 L2 load).R2 load = 0 ∧
    twoSpanUnequal.calculateBendingMomentValue (L1 + L2) L1 (L1 + L2)
      (twoSpanUnequal.calculateSupports L1 L2 load).R1
      (twoSpanUnequal.calculateSupports L1 L2 load).R2 load = 0 := by
  constructor
  · rw [twoSpanUnequal.calculateBendingMomentValue, if_pos (Or.inl rfl)]
  · rw [twoSpanUnequal.calculateBendingMomentValue, if_pos (Or.inr rfl)]

theorem claim_C4_witness :
    twoSpanUnequal.calculateBendingMomentValue 0 4 (4 + 6)
      (twoSpanUnequal.calculateSupports 4 6 10).R1
      (twoSpanUnequal.calculateSupports 4 6 10).R2 10 = 0 ∧
    twoSpanUnequal.calculateBendingMomentValue (4 + 6) 4 (4 + 6)
      (twoSpanUnequal.calculateSupports 4 6 10).R1
      (twoSpanUnequal.calculateSupports 4 6 10).R2 10 = 0 :=
  claim_C4 10 4 6 (by norm_num) (by norm_num)

/-- C2: branch selection of the two-span pointwise evaluators around the
interior support `x = L1`, with the solver's reactions: the moment at `x = L1`
is `-(R1·L1 − w·L1²/2)` (omitting `R2`), for `x > L1` it is
`-(R1·x + R2·(x−L1) − w·x²/2)`; the shear at `x = L1` is `R2 − w·L1` (while
the left-limit branch `x < L1` gives `R1 − w·x`), and for `x > L1` it is
`R2 − w·(x−L1)`. -/
theorem claim_C2 (load L1 L2 x : ℚ) (h1 : 0 < L1) (h2 : 0 < L2) :
    (twoSpanUnequal.calculateBendingMomentValue L1 L1 (L1 + L2)
        (twoSpanUnequal.calculateSupports L1 L2 load).R1
        (twoSpanUnequal.calculateSupports L1 L2 load).R2 load =
      -((twoSpanUnequal.calculateSupports L1 L2 load).R1 * L1 -
        1 / 2 * load * L1 ^ 2)) ∧
    (L1 < x →
      twoSpanUnequal.calculateBendingMomentValue x L1 (L1 + L2)
        (twoSpanUnequal.calculateSupports L1 L2 load).R1
        (twoSpanUnequal.calculateSupports L1 L2 load).R2 load =
      -((twoSpanUnequal.calculateSupports L1 L2 load).R1 * x +
        (twoSpanUnequal.calculateSupports L1 L2 load).R2 * (x - L1) -
        1 / 2 * load * x ^ 2)) ∧
    (twoSpanUnequal.calculateShearForceValue L1 L1
        (twoSpanUnequal.calculateSupports L1 L2 load).R1
        (twoSpanUnequal.calculateSupports L1 L2 load).R2 load =
      (twoSpanUnequal.calculateSupports L1 L2 load).R2 - load * L1) ∧
    (x < L1 →
      twoSpanUnequal.calculateShearForceValue x L1
        (twoSpanUnequal.calculateSupports L1 L2 load).R1
        (twoSpanUnequal.calculateSupports L1 L2 load).R2 load =
      (twoSpanUnequal.calculateSupports L1 L2 load).R1 - load * x) ∧
    (L1 < x →
      twoSpanUnequal.calculateShearForceValue x L1
        (twoSpanUnequal.calculateSupports L1 L2 load).R1
        (twoSpanUnequal.calculateSupports L1 L2 load).R2 load =
      (twoSpanUnequal.calculateSupports L1 L2 load).R2 - load * (x - L1)) := by
  have hL1 : L1 ≠ 0 := ne_of_gt h1
  have hL2 : L2 ≠ 0 := ne_of_gt h2
  have h12 : L1 + L2 ≠ 0 := ne_of_gt (by linarith)
  refine ⟨?_, ?_, ?_, ?_, ?_⟩
  · rw [twoSpanUnequal.calculateBendingMomentValue,
      if_neg (by push_neg; exact ⟨hL1, by intro h; exact hL2 (by linarith)⟩),
      if_neg (lt_irrefl L1), if_neg (lt_irrefl L1)]
  · intro hx
    by_cases hT : x = L1 + L2
    · subst hT
      rw [twoSpanUnequal.calculateBendingMomentValue, if_pos (Or.inr rfl)]
      have h0 := moment_formula_at_total load L1 L2 hL1 hL2 h12
      linarith
    · rw [twoSpanUnequal.calculateBendingMomentValue,
        if_neg (by push_neg; exact ⟨ne_of_gt (h1.trans hx), hT⟩),
        if_neg (not_lt.mpr hx.le), if_pos hx]
  · rw [twoSpanUnequal.calculateShearForceValue, if_neg (lt_irrefl L1), if_pos rfl]
  · intro hx
    rw [twoSpanUnequal.calculateShearForceValue, if_pos hx]
  · intro hx
    rw [twoSpanUnequal.calculateShearForceValue, if_neg (not_lt.mpr hx.le),
      if_neg (ne_of_gt hx)]

theorem claim_C2_witness :
    twoSpanUnequal.calculateBendingMomentValue 4 4 (4 + 6)
      (twoSpanUnequal.calculateSupports 4 6 10).R1
      (twoSpanUnequal.calculateSupports 4 6 10).R2 10 =
      -((twoSpanUnequal.calculateSupports 4 6 10).R1 * 4 - 1 / 2 * 10 * 4 ^ 2) ∧
    twoSpanUnequal.calculateBendingMomentValue 7 4 (4 + 6)
      (twoSpanUnequal.calculateSupports 4 6 10).R1
      (twoSpanUnequal.calculateSupports 4 6 10).R2 10 =
      -((twoSpanUnequal.calculateSupports 4 6 10).R1 * 7 +
        (twoSpanUnequal.calculateSupports 4 6 10).R2 * (7 - 4) -
        1 / 2 * 10 * 7 ^ 2) :=
  ⟨(claim_C2 10 4 6 7 (by norm_num) (by norm_num)).1,
    (claim_C2 10 4 6 7 (by norm_num) (by norm_num)).2.1 (by norm_num)⟩

/-- C5: for a simply-supported beam of span `L` and load `w`, each sampled
moment is `-(w·x/2)·(L−x)` rounded to one decimal and each sampled shear is
`w·(L/2 − x)` rounded to one decimal; for `L = 8`, `w = 10` the shear samples
at `x = 0, 4, 8` are `40, 0, -40` and the moment samples are `0, -80, 0`. -/
theorem claim_C5 (beam : Beam) (load : ℚ) (h : 0 < beam.primarySpan) :
    ((simplySupported.getBendingMomentEquation beam load).y =
      (simplySupported.getBendingMomentEquation beam load).x.map (fun x =>
        round1 (-(load * x / 2) * (beam.primarySpan - x)))) ∧
    ((simplySupported.getShearForceEquation beam load).y =
      (simplySupported.getShearForceEquation beam load).x.map (fun x =>
        round1 (load * (beam.primarySpan / 2 - x)))) ∧
    ((simplySupported.getShearForceEquation beamSS 10).x.get? 0 = some 0 ∧
      (simplySupported.getShearForceEquation beamSS 10).y.get? 0 = some 40 ∧
      (simplySupported.getShearForceEquation beamSS 10).x.get? 5 = some 4 ∧
      (simplySupported.getShearForceEquation beamSS 10).y.get? 5 = some 0 ∧
      (simplySupported.getShearForceEquation beamSS 10).x.get? 10 = some 8 ∧
      (simplySupported.getShearForceEquation beamSS 10).y.get? 10 = some (-40)) ∧
    ((simplySupported.getBendingMomentEquation beamSS 10).x.get? 0 = some 0 ∧
      (simplySupported.getBendingMomentEquation beamSS 10).y.get? 0 = some 0 ∧
      (simplySupported.getBendingMomentEquation beamSS 10).x.get? 5 = some 4 ∧
      (simplySupported.getBendingMomentEquation beamSS 10).y.get? 5 = some (-80) ∧
      (simplySupported.getBendingMomentEquation beamSS 10).x.get? 10 = some 8 ∧
      (simplySupported.getBendingMomentEquation beamSS 10).y.get? 10 = some 0) := by
  have hSS : (0 : ℚ) < beamSS.primarySpan := by norm_num [beamSS]
  have hxS := simplySupported_shear_x beamSS 10 hSS
  have hxM := simplySupported_moment_x beamSS 10 hSS
  have hP : beamSS.primarySpan = 8 := rfl
  refine ⟨?_, ?_, ⟨?_, ?_, ?_, ?_, ?_, ?_⟩, ⟨?_, ?_, ?_, ?_, ?_, ?_⟩⟩
  · rw [simplySupported_moment_y beam load]
    apply List.map_congr_left
    intro a _
    congr 1
    ring
  · rw [simplySupported_shear_y beam load]
  · rw [hxS, hP, get?_map_range 11 _ 0 (by norm_num)]
    norm_num [round1, round_eq]
  · rw [simplySupported_shear_y beamSS 10, List.get?_map, hxS, hP,
      get?_map_range 11 _ 0 (by norm_num)]
    norm_num [round1, round_eq, beamSS]
  · rw [hxS, hP, get?_map_range 11 _ 5 (by norm_num)]
    norm_num [round1, round_eq]
  · rw [simplySupported_shear_y beamSS 10, List.get?_map, hxS, hP,
      get?_map_range 11 _ 5 (by norm_num)]
    norm_num [round1, round_eq, beamSS]
  · rw [hxS, hP, get?_map_range 11 _ 10 (by norm_num)]
    norm_num [round1, round_eq]
  · rw [simplySupported_shear_y beamSS 10, List.get?_map, hxS, hP,
      get?_map_range 11 _ 10 (by norm_num)]
    norm_num [round1, round_eq, beamSS]
  · rw [hxM, hP, get?_map_range 11 _ 0 (by norm_num)]
    norm_num [round1, round_eq]
  · rw [simplySupported_moment_y beamSS 10, List.get?_map, hxM, hP,
      get?_map_range 11 _ 0 (by norm_num)]
    norm_num [round1, round_eq, beamSS]
  · rw [hxM, hP, get?_map_range 11 _ 5 (by norm_num)]
    norm_num [round1, round_eq]
  · rw [simplySupported_moment_y beamSS 10, List.get?_map, hxM, hP,
      get?_map_range 11 _ 5 (by norm_num)]
    norm_num [round1, round_eq, beamSS]
  · rw [hxM, hP, get?_map_range 11 _ 10 (by norm_num)]
    norm_num [round1, round_eq]
  · rw [simplySupported_moment_y beamSS 10, List.get?_map, hxM, hP,
      get?_map_range 11 _ 10 (by norm_num)]
    norm_num [round1, round_eq, beamSS]

theorem claim_C5_witness :
    (simplySupported.getShearForceEquation beamSS 10).y.get? 5 = some 0 ∧
    (simplySupported.getBendingMomentEquation beamSS 10).y.get? 5 = some (-80) :=
  ⟨(claim_C5 beamSS 10 (by norm_num [beamSS])).2.2.1.2.2.2.1,
    (claim_C5 beamSS 10 (by norm_num [beamSS])).2.2.2.2.2.2.1⟩

/-- C6 (counterexample): at `L = 8`, `EI = 210000000`, `j2 = 1`, `w = 10`,
the recorded deflection at the sample of index 1 (recorded x = 1) is not the
raw value rounded first and then multiplied by `1e9` — that order would give
`0`, while the code records `round1(V·1e9) = -986111.1`. -/
theorem claim_C6_counterexample :
    ¬ ((simplySupported.getDeflectionEquation beamSS 10).y.get? 1 =
      some (round1 (-((10 * 1) / (24 * 210000000)) *
        ((8 : ℚ) ^ 3 - 2 * 8 * 1 ^ 2 + 1 ^ 3) * 1 * 1000) * 10 ^ 9)) := by
  have hx := simplySupported_deflection_x beamSS 10 (by norm_num [beamSS])
  rw [simplySupported_deflection_y beamSS 10, List.get?_map, hx,
    get?_map_range 9 _ 1 (by norm_num)]
  norm_num [round1, round_eq, beamSS, testMaterial]

/-- C6 (amended): each recorded deflection y equals the raw deflection value
`-(w·x/(24·EI))·(L³−2·L·x²+x³)·j2·1000` first multiplied by `1e9` and then
rounded to one decimal place (the scaling happens before the rounding). -/
theorem claim_C6 (beam : Beam) (load : ℚ) :
    ∀ k x0, (simplySupported.getDeflectionEquation beam load).x.get? k = some x0 →
      (simplySupported.getDeflectionEquation beam load).y.get? k =
        some (round1 ((-((load * x0) / (24 * beam.material.properties.EI)) *
          (beam.primarySpan ^ 3 - 2 * beam.primarySpan * x0 ^ 2 + x0 ^ 3) *
          beam.material.properties.j2 * 1000) * 10 ^ 9)) := by
  intro k x0 hk
  rw [simplySupported_deflection_y beam load, List.get?_map, hk]
  rfl

theorem claim_C6_witness :
    (simplySupported.getDeflectionEquation beamSS 10).y.get? 1 =
      some (round1 ((-((10 * 1) / (24 * (210000000 : ℚ))) *
        (8 ^ 3 - 2 * 8 * 1 ^ 2 + 1 ^ 3) * 1 * 1000) * 10 ^ 9)) := by
  have hx1 : (simplySupported.getDeflectionEquation beamSS 10).x.get? 1 = some 1 := by
    rw [simplySupported_deflection_x beamSS 10 (by norm_num [beamSS]),
      get?_map_range 9 _ 1 (by norm_num)]
    norm_num [round1, round_eq, beamSS]
  exact claim_C6 beamSS 10 1 1 hx1

/-- C7: with positive span(s), the simply-supported deflection equation has
exactly 9 sample points, the simply-supported moment and shear equations 11
each, and each two-span equation exactly 1001. -/
theorem claim_C7 (beam : Beam) (load : ℚ) (h1 : 0 < beam.primarySpan)
    (h2 : 0 < beam.secondarySpan) :
    ((simplySupported.getDeflectionEquation beam load).x.length = 9 ∧
      (simplySupported.getDeflectionEquation beam load).y.length = 9) ∧
    ((simplySupported.getBendingMomentEquation beam load).x.length = 11 ∧
      (simplySupported.getBendingMomentEquation beam load).y.length = 11) ∧
    ((simplySupported.getShearForceEquation beam load).x.length = 11 ∧
      (simplySupported.getShearForceEquation beam load).y.length = 11) ∧
    ((twoSpanUnequal.getDeflectionEquation beam load).x.length = 1001 ∧
      (twoSpanUnequal.getDeflectionEquation beam load).y.length = 1001) ∧
    ((twoSpanUnequal.getBendingMomentEquation beam load).x.length = 1001 ∧
      (twoSpanUnequal.getBendingMomentEquation beam load).y.length = 1001) ∧
    ((twoSpanUnequal.getShearForceEquation beam load).x.length = 1001 ∧
      (twoSpanUnequal.getShearForceEquation beam load).y.length = 1001) := by
  have hT : 0 < beam.primarySpan + beam.secondarySpan := by linarith
  have e1 : (simplySupported.getDeflectionEquation beam load).x.length = 9 := by
    rw [simplySupported_deflection_x beam load h1]; simp
  have e2 : (simplySupported.getBendingMomentEquation beam load).x.length = 11 := by
    rw [simplySupported_moment_x beam load h1]; simp
  have e3 : (simplySupported.getShearForceEquation beam load).x.length = 11 := by
    rw [simplySupported_shear_x beam load h1]; simp
  have e4 : (twoSpanUnequal.getDeflectionEquation beam load).x.length = 1001 := by
    rw [twoSpanUnequal_deflection_x beam load hT]; simp
  have e5 : (twoSpanUnequal.getBendingMomentEquation beam load).x.length = 1001 := by
    rw [twoSpanUnequal_moment_x beam load hT]; simp
  have e6 : (twoSpanUnequal.getShearForceEquation beam load).x.length = 1001 := by
    rw [twoSpanUnequal_shear_x beam load hT]; simp
  refine ⟨⟨e1, ?_⟩, ⟨e2, ?_⟩, ⟨e3, ?_⟩, ⟨e4, ?_⟩, ⟨e5, ?_⟩, ⟨e6, ?_⟩⟩
  · rw [simplySupported_deflection_y beam load, List.length_map, e1]
  · rw [simplySupported_moment_y beam load, List.length_map, e2]
  · rw [simplySupported_shear_y beam load, List.length_map, e3]
  · rw [twoSpanUnequal_deflection_y beam load, List.length_map, e4]
  · rw [twoSpanUnequal_moment_y beam load, List.length_map, e5]
  · rw [twoSpanUnequal_shear_y beam load, List.length_map, e6]

theorem claim_C7_witness :
    (simplySupported.getDeflectionEquation beamTS 10).x.length = 9 ∧
    (twoSpanUnequal.getBendingMomentEquation beamTS 10).x.length = 1001 :=
  ⟨((claim_C7 beamTS 10 (by norm_num [beamTS]) (by norm_num [beamTS])).1).1,
    ((claim_C7 beamTS 10 (by norm_num [beamTS]) (by norm_num [beamTS])).2.2.2.2.1).1⟩

/-- C8 (counterexample): for the two-span beam `L1 = 4`, `L2 = 6` the step is
`10/1000 = 0.01`, so the first two recorded x values are both `0` after
rounding to one decimal: the x sequence is not strictly ascending. -/
theorem claim_C8_counterexample :
    ¬ List.Sorted (· < ·) ((twoSpanUnequal.getBendingMomentEquation beamTS 10).x) := by
  have hx := twoSpanUnequal_moment_x beamTS 10 (by norm_num [beamTS])
  have h0 : (twoSpanUnequal.getBendingMomentEquation beamTS 10).x.get? 0 = some 0 := by
    rw [hx, get?_map_range 1001 _ 0 (by norm_num)]
    norm_num [round1, round_eq, beamTS]
  have h1 : (twoSpanUnequal.getBendingMomentEquation beamTS 10).x.get? 1 = some 0 := by
    rw [hx, get?_map_range 1001 _ 1 (by norm_num)]
    norm_num [round1, round_eq, beamTS]
  intro hs
  obtain ⟨hl0, hg0⟩ := List.get?_eq_some.mp h0
  obtain ⟨hl1, hg1⟩ := List.get?_eq_some.mp h1
  have := List.pairwise_iff_get.mp hs ⟨0, hl0⟩ ⟨1, hl1⟩ (by norm_num)
  rw [hg0, hg1] at this
  exact lt_irrefl 0 this

/-- For a nonnegative step, the rounded sample list is non-decreasing and its
last recorded x is `round1 (N · step)`. -/
lemma sorted_le_and_getLast (N : ℕ) (step : ℚ) (h : 0 ≤ step) :
    List.Sorted (· ≤ ·)
        ((List.range (N + 1)).map (fun k : ℕ => round1 ((k : ℚ) * step))) ∧
      ((List.range (N + 1)).map
        (fun k : ℕ => round1 ((k : ℚ) * step))).getLast? =
        some (round1 ((N : ℚ) * step)) :=
  ⟨sorted_le_round1_range (N + 1) step h, getLast?_map_range N _⟩

/-- C8 (amended): for every equation output of either analyzer (positive
span(s)), the x sequence is non-decreasing — ascending, with repeats possible
when the rounded step collides — and its last element is the beam's total
length rounded to one decimal place. -/
theorem claim_C8 (beam : Beam) (load : ℚ) (h1 : 0 < beam.primarySpan)
    (h2 : 0 < beam.secondarySpan) :
    (List.Sorted (· ≤ ·) (simplySupported.getDeflectionEquation beam load).x ∧
      (simplySupported.getDeflectionEquation beam load).x.getLast? =
        some (round1 beam.primarySpan)) ∧
    (List.Sorted (· ≤ ·) (simplySupported.getBendingMomentEquation beam load).x ∧
      (simplySupported.getBendingMomentEquation beam load).x.getLast? =
        some (round1 beam.primarySpan)) ∧
    (List.Sorted (· ≤ ·) (simplySupported.getShearForceEquation beam load).x ∧
      (simplySupported.getShearForceEquation beam load).x.getLast? =
        some (round1 beam.primarySpan)) ∧
    (List.Sorted (· ≤ ·) (twoSpanUnequal.getDeflectionEquation beam load).x ∧
      (twoSpanUnequal.getDeflectionEquation beam load).x.getLast? =
        some (round1 (beam.primarySpan + beam.secondarySpan))) ∧
    (List.Sorted (· ≤ ·) (twoSpanUnequal.getBendingMomentEquation beam load).x ∧
      (twoSpanUnequal.getBendingMomentEquation beam load).x.getLast? =
        some (round1 (beam.primarySpan + beam.secondarySpan))) ∧
    (List.Sorted (· ≤ ·) (twoSpanUnequal.getShearForceEquation beam load).x ∧
      (twoSpanUnequal.getShearForceEquation beam load).x.getLast? =
        some (round1 (beam.primarySpan + beam.secondarySpan))) := by
  have hT : 0 < beam.primarySpan + beam.secondarySpan := by linarith
  have s8 : (0 : ℚ) ≤ beam.primarySpan / 8 := by positivity
  have s10 : (0 : ℚ) ≤ beam.primarySpan / 10 := by positivity
  have sT : (0 : ℚ) ≤ (beam.primarySpan + beam.secondarySpan) / 1000 := by positivity
  refine ⟨?_, ?_, ?_, ?_, ?_, ?_⟩
  · rw [simplySupported_deflection_x beam load h1]
    refine ⟨(sorted_le_and_getLast 8 _ s8).1, ?_⟩
    rw [(sorted_le_and_getLast 8 _ s8).2]
    congr 1
    push_cast
    ring_nf
  · rw [simplySupported_moment_x beam load h1]
    refine ⟨(sorted_le_and_getLast 10 _ s10).1, ?_⟩
    rw [(sorted_le_and_getLast 10 _ s10).2]
    congr 1
    push_cast
    ring_nf
  · rw [simplySupported_shear_x beam load h1]
    refine ⟨(sorted_le_and_getLast 10 _ s10).1, ?_⟩
    rw [(sorted_le_and_getLast 10 _ s10).2]
    congr 1
    push_cast
    ring_nf
  · rw [twoSpanUnequal_deflection_x beam load hT]
    refine ⟨(sorted_le_and_getLast 1000 _ sT).1, ?_⟩
    rw [(sorted_le_and_getLast 1000 _ sT).2]
    congr 1
    push_cast
    ring_nf
  · rw [twoSpanUnequal_moment_x beam load hT]
    refine ⟨(sorted_le_and_getLast 1000 _ sT).1, ?_⟩
    rw [(sorted_le_and_getLast 1000 _ sT).2]
    congr 1
    push_cast
    ring_nf
  · rw [twoSpanUnequal_shear_x beam load hT]
    refine ⟨(sorted_le_and_getLast 1000 _ sT).1, ?_⟩
    rw [(sorted_le_and_getLast 1000 _ sT).2]
    congr 1
    push_cast
    ring_nf

theorem claim_C8_witness :
    List.Sorted (· ≤ ·) (twoSpanUnequal.getBendingMomentEquation beamTS 10).x ∧
    (twoSpanUnequal.getBendingMomentEquation beamTS 10).x.getLast? =
      some (round1 (beamTS.primarySpan + beamTS.secondarySpan)) :=
  (claim_C8 beamTS 10 (by norm_num [beamTS]) (by norm_num [beamTS])).2.2.2.2.1

/-- C9: each facade operation fails with the invalid-condition error exactly
when the condition is not one of the two registered identifiers, and for a
registered condition returns `{beam, load, equation}` with beam and load
passed through unchanged. -/
theorem claim_C9 (beam : Beam) (load : ℚ) (condition : String) :
    ((BeamAnalysis.getDeflection beam load condition =
        Except.error "Invalid condition" ↔
        ¬ (condition = "simply-supported" ∨ condition = "two-span-unequal")) ∧
      ∀ r, BeamAnalysis.getDeflection beam load condition = Except.ok r →
        r.beam = beam ∧ r.load = load) ∧
    ((BeamAnalysis.getBendingMoment beam load condition =
        Except.error "Invalid condition" ↔
        ¬ (condition = "simply-supported" ∨ condition = "two-span-unequal")) ∧
      ∀ r, BeamAnalysis.getBendingMoment beam load condition = Except.ok r →
        r.beam = beam ∧ r.load = load) ∧
    ((BeamAnalysis.getShearForce beam load condition =
        Except.error "Invalid condition" ↔
        ¬ (condition = "simply-supported" ∨ condition = "two-span-unequal")) ∧
      ∀ r, BeamAnalysis.getShearForce beam load condition = Except.ok r →
        r.beam = beam ∧ r.load = load) := by
  refine ⟨⟨?_, ?_⟩, ⟨?_, ?_⟩, ⟨?_, ?_⟩⟩ <;>
  · simp only [BeamAnalysis.getDeflection, BeamAnalysis.getBendingMoment,
      BeamAnalysis.getShearForce, analyzerFor]
    by_cases hc1 : condition = "simply-supported"
    · simp [hc1]
    · by_cases hc2 : condition = "two-span-unequal"
      · simp [hc1, hc2]
      · simp [hc1, hc2]

theorem claim_C9_witness :
    BeamAnalysis.getDeflection beamTS 10 "three-span" =
      Except.error "Invalid condition" :=
  ((claim_C9 beamTS 10 "three-span").1.1).mpr (by simp)

/-- C10: in all three two-span equation methods each recorded y is the
piecewise evaluator applied at the recorded (rounded) x — so branch selection
sees the rounded coordinate — and whenever the step `(L1+L2)/1000` is below
`0.05` consecutive recorded x entries repeat with identical y values (shown
for the first two samples, whose x both round to 0). -/
theorem claim_C10 (beam : Beam) (load : ℚ) (h1 : 0 < beam.primarySpan)
    (h2 : 0 < beam.secondarySpan) :
    ((twoSpanUnequal.getDeflectionEquation beam load).y =
      (twoSpanUnequal.getDeflectionEquation beam load).x.map (fun x =>
        round1 ((twoSpanUnequal.calculateDeflectionValue x beam.primarySpan
          beam.secondarySpan beam.material.properties.EI beam.material.properties.j2
          (twoSpanUnequal.calculateSupports beam.primarySpan beam.secondarySpan load).R1
          (twoSpanUnequal.calculateSupports beam.primarySpan beam.secondarySpan load).R2
          load) * 10 ^ 9))) ∧
    ((twoSpanUnequal.getBendingMomentEquation beam load).y =
      (twoSpanUnequal.getBendingMomentEquation beam load).x.map (fun x =>
        round1 (twoSpanUnequal.calculateBendingMomentValue x beam.primarySpan
          (beam.primarySpan + beam.secondarySpan)
          (twoSpanUnequal.calculateSupports beam.primarySpan beam.secondarySpan load).R1
          (twoSpanUnequal.calculateSupports beam.primarySpan beam.secondarySpan load).R2
          load))) ∧
    ((twoSpanUnequal.getShearForceEquation beam load).y =
      (twoSpanUnequal.getShearForceEquation beam load).x.map (fun x =>
        round1 (twoSpanUnequal.calculateShearForceValue x beam.primarySpan
          (twoSpanUnequal.calculateSupports beam.primarySpan beam.secondarySpan load).R1
          (twoSpanUnequal.calculateSupports beam.primarySpan beam.secondarySpan load).R2
          load))) ∧
    ((beam.primarySpan + beam.secondarySpan) / 1000 < 1 / 20 →
      ((twoSpanUnequal.getDeflectionEquation beam load).x.get? 0 =
          (twoSpanUnequal.getDeflectionEquation beam load).x.get? 1 ∧
        (twoSpanUnequal.getDeflectionEquation beam load).y.get? 0 =
          (twoSpanUnequal.getDeflectionEquation beam load).y.get? 1) ∧
      ((twoSpanUnequal.getBendingMomentEquation beam load).x.get? 0 =
          (twoSpanUnequal.getBendingMomentEquation beam load).x.get? 1 ∧
        (twoSpanUnequal.getBendingMomentEquation beam load).y.get? 0 =
          (twoSpanUnequal.getBendingMomentEquation beam load).y.get? 1) ∧
      ((twoSpanUnequal.getShearForceEquation beam load).x.get? 0 =
          (twoSpanUnequal.getShearForceEquation beam load).x.get? 1 ∧
        (twoSpanUnequal.getShearForceEquation beam load).y.get? 0 =
          (twoSpanUnequal.getShearForceEquation beam load).y.get? 1)) := by
  have hT : 0 < beam.primarySpan + beam.secondarySpan := by linarith
  refine ⟨twoSpanUnequal_deflection_y beam load, twoSpanUnequal_moment_y beam load,
    twoSpanUnequal_shear_y beam load, ?_⟩
  intro hstep
  have hs0 : (0 : ℚ) ≤ (beam.primarySpan + beam.secondarySpan) / 1000 := by positivity
  have hr : round1 ((beam.primarySpan + beam.secondarySpan) / 1000) = 0 :=
    round1_eq_zero hs0 hstep
  have key : ∀ xl : List ℚ,
      xl = (List.range 1001).map (fun k : ℕ =>
        round1 ((k : ℚ) * ((beam.primarySpan + beam.secondarySpan) / 1000))) →
      xl.get? 0 = xl.get? 1 := by
    intro xl hxl
    rw [hxl, get?_map_range 1001 _ 0 (by norm_num),
      get?_map_range 1001 _ 1 (by norm_num), Nat.cast_zero, zero_mul, round1_zero,
      Nat.cast_one, one_mul, hr]
  have kd := key _ (twoSpanUnequal_deflection_x beam load hT)
  have km := key _ (twoSpanUnequal_moment_x beam load hT)
  have ks := key _ (twoSpanUnequal_shear_x beam load hT)
  refine ⟨⟨kd, ?_⟩, ⟨km, ?_⟩, ⟨ks, ?_⟩⟩
  · rw [twoSpanUnequal_deflection_y beam load, List.get?_map, List.get?_map, kd]
  · rw [twoSpanUnequal_moment_y beam load, List.get?_map, List.get?_map, km]
  · rw [twoSpanUnequal_shear_y beam load, List.get?_map, List.get?_map, ks]

theorem claim_C10_witness :
    (twoSpanUnequal.getBendingMomentEquation beamTS 10).x.get? 0 =
      (twoSpanUnequal.getBendingMomentEquation beamTS 10).x.get? 1 ∧
    (twoSpanUnequal.getBendingMomentEquation beamTS 10).y.get? 0 =
      (twoSpanUnequal.getBendingMomentEquation beamTS 10).y.get? 1 :=
  ((claim_C10 beamTS 10 (by norm_num [beamTS]) (by norm_num [beamTS])).2.2.2
    (by norm_num [beamTS])).2.1
